import Mathlib

/-!
Verification of the `Watch` reactive-effect abstraction
(`packages/core/src/signals/src/watch.ts` excerpt, the second document of
`part_006`, lines 371-474) against its natural-language specification.

The TypeScript class under study is:

```ts
export class Watch extends ReactiveNode {
  private dirty = false;
  private cleanupFn = NOOP_CLEANUP_FN;
  private registerOnCleanup = (cleanupFn) => { this.cleanupFn = cleanupFn; }

  notify(): void {
    if (!this.dirty) { this.schedule(this); }
    this.dirty = true;
  }

  run(): void {
    this.dirty = false;
    if (this.trackingVersion !== 0 && !this.consumerPollProducersForChange()) {
      return;
    }
    const prevConsumer = setActiveConsumer(this);
    this.trackingVersion++;
    try {
      this.cleanupFn();
      this.cleanupFn = NOOP_CLEANUP_FN;
      this.watch(this.registerOnCleanup);
    } finally {
      setActiveConsumer(prevConsumer);
    }
  }

  cleanup() { this.cleanupFn(); }
}
```

The shallow embedding below models the mutable fields of a `Watch` plus the
global active-consumer register as an explicit state record, and each method
as a state transformer that additionally returns a trace of observable events
(calls to the user-supplied `schedule` callback, `setActiveConsumer` swaps,
tracking-version increments, invocations of user cleanup functions, and the
start of the user watch function) and an optional propagated exception.

The `graph` module (`ReactiveNode`, `setActiveConsumer`,
`consumerPollProducersForChange`) is not part of the provided sources; the
pieces of it that `Watch` uses are modelled from the spec where noted.
-/

/-- Exception values thrown by user-supplied code.  Carrying a concrete value
lets us state that `run()` propagates a thrown exception unmodified. -/
abbrev Exc := Nat

/-- A user-supplied cleanup function (`WatchCleanupFn`).  `id` identifies the
function in event traces; `throws` is `some e` when invoking the function
throws exception `e`, and `none` when it returns normally. -/
structure CleanupFn where
  id : Nat
  throws : Option Exc
deriving DecidableEq

/-- `const NOOP_CLEANUP_FN: WatchCleanupFn = () => {};` — the no-op cleanup
function installed at construction and after each successful cleanup call
inside `run()`.  It has trace id 0 and never throws. -/
def NOOP_CLEANUP_FN : CleanupFn := ⟨0, none⟩

/-- One step of a user-supplied watch function.  The body of a watch receives
the `registerOnCleanup` callback and may call it (`registerCleanup`), and may
throw (`throwErr`), which aborts the body with that exception.  Reads of
reactive producers are invisible to the `Watch` class itself (they go through
the missing `graph` module) and so are not modelled as actions. -/
inductive WatchAction where
  | registerCleanup (fn : CleanupFn)
  | throwErr (e : Exc)
deriving DecidableEq

/-- Observable events emitted by the methods of `Watch`, in program order. -/
inductive Event where
  /-- `this.schedule(this)` — the externally supplied scheduling callback. -/
  | scheduleCall
  /-- `this.dirty = b`. -/
  | dirtySet (b : Bool)
  /-- `setActiveConsumer(c)` — the global register is set to `c`. -/
  | setConsumer (c : Option Nat)
  /-- `this.trackingVersion++`. -/
  | tvIncr
  /-- Invocation of the cleanup function with trace id `id`. -/
  | cleanupInvoke (id : Nat)
  /-- `this.cleanupFn = NOOP_CLEANUP_FN` inside `run()`. -/
  | cleanupClear
  /-- `this.watch(this.registerOnCleanup)` — the user watch body starts. -/
  | watchStart
deriving DecidableEq

/-- The mutable state a `Watch` method can touch: the watch's own fields
`dirty`, `trackingVersion` (inherited from `ReactiveNode`) and `cleanupFn`,
together with the process-wide active-consumer register.

Modelled from the spec: `activeConsumer` stands for the single-slot global
register of the missing `graph` module; `setActiveConsumer(node)` swaps the
slot and returns the previous occupant.  Nodes are identified by `Nat` ids
(`none` = no active consumer). -/
structure WatchState where
  dirty : Bool
  trackingVersion : Nat
  cleanupFn : CleanupFn
  activeConsumer : Option Nat
deriving DecidableEq

/-- The immutable construction data of a `Watch` that the studied claims
depend on: its identity (for `setActiveConsumer(this)`) and the user watch
function, given as the list of actions its body performs in order.  The
`schedule` callback is external and appears only as the `scheduleCall` trace
event; `allowSignalWrites` is stored but never consulted by `Watch` itself
and is omitted. -/
structure Watch where
  selfId : Nat
  watchBody : List WatchAction

/-- Execute the user watch body: `registerCleanup fn` performs
`this.cleanupFn = fn` (the `registerOnCleanup` callback), `throwErr e` aborts
the body with exception `e`. -/
def runBody : List WatchAction → WatchState → WatchState × Option Exc
  | [], s => (s, none)
  | WatchAction.registerCleanup fn :: rest, s =>
      runBody rest { s with cleanupFn := fn }
  | WatchAction.throwErr e :: _, s => (s, some e)

/-- `Watch.notify()`:

```ts
notify(): void {
  if (!this.dirty) { this.schedule(this); }
  this.dirty = true;
}
```

Returns the new state and the emitted events. -/
def Watch.notify (s : WatchState) : WatchState × List Event :=
  if s.dirty = false then
    ({ s with dirty := true }, [Event.scheduleCall, Event.dirtySet true])
  else
    ({ s with dirty := true }, [Event.dirtySet true])

/-- `Watch.run()`.  `poll` is the result of
`this.consumerPollProducersForChange()`; that method lives in the missing
`graph` module, so it is treated as a boolean oracle supplied by the caller
(the short-circuiting `&&` of the source only consults it when
`trackingVersion !== 0`, which the `if` condition reproduces).

The three branches are: short-circuit return (version nonzero and poll
false); the previous cleanup function throws inside the `try` (the `finally`
restores the active consumer, `cleanupFn` is not cleared, the watch body
never starts); and the normal path where the cleanup returns, is cleared,
and the body runs (throwing or not), with the `finally` restoring the active
consumer in either case. -/
def Watch.run (w : Watch) (poll : Bool) (s : WatchState) :
    WatchState × List Event × Option Exc :=
  if s.trackingVersion ≠ 0 ∧ poll = false then
    ({ s with dirty := false }, [Event.dirtySet false], none)
  else
    match s.cleanupFn.throws with
    | some e =>
        ({ s with dirty := false, trackingVersion := s.trackingVersion + 1 },
         [Event.dirtySet false, Event.setConsumer (some w.selfId), Event.tvIncr,
          Event.cleanupInvoke s.cleanupFn.id, Event.setConsumer s.activeConsumer],
         some e)
    | none =>
        let res := runBody w.watchBody
          { s with dirty := false, activeConsumer := some w.selfId,
                   trackingVersion := s.trackingVersion + 1,
                   cleanupFn := NOOP_CLEANUP_FN }
        ({ res.1 with activeConsumer := s.activeConsumer },
         [Event.dirtySet false, Event.setConsumer (some w.selfId), Event.tvIncr,
          Event.cleanupInvoke s.cleanupFn.id, Event.cleanupClear, Event.watchStart,
          Event.setConsumer s.activeConsumer],
         res.2)

/-- `Watch.cleanup()`: `cleanup() { this.cleanupFn(); }` — invokes the
registered cleanup function (propagating its exception, if any) and changes
no state. -/
def Watch.cleanup (s : WatchState) : WatchState × List Event × Option Exc :=
  (s, [Event.cleanupInvoke s.cleanupFn.id], s.cleanupFn.throws)

/-- The field values of a freshly constructed `Watch`: `dirty = false` and
`cleanupFn = NOOP_CLEANUP_FN` are the source's initializers (lines 414-415).

Modelled from the spec: `trackingVersion = 0` is the initial value supplied
by the missing `ReactiveNode` base class; the spec equates
`trackingVersion !== 0` with "this is not the very first run".  `ac` is
whatever the global active-consumer register holds at construction time. -/
def Watch.initialState (ac : Option Nat) : WatchState :=
  { dirty := false, trackingVersion := 0, cleanupFn := NOOP_CLEANUP_FN,
    activeConsumer := ac }

/-- `true` on events that are calls of the `schedule` callback. -/
def isScheduleCall : Event → Bool
  | Event.scheduleCall => true
  | _ => false

/-- Number of `schedule`-callback invocations in a trace. -/
def countSchedule (evs : List Event) : Nat := (evs.filter isScheduleCall).length

/-- `true` on events that are invocations of a cleanup function. -/
def isCleanupInvoke : Event → Bool
  | Event.cleanupInvoke _ => true
  | _ => false

/-- Number of cleanup-function invocations in a trace. -/
def countCleanupInvoke (evs : List Event) : Nat :=
  (evs.filter isCleanupInvoke).length

/-- `n` successive `notify()` calls, collecting the concatenated trace. -/
def notifyMany : Nat → WatchState → WatchState × List Event
  | 0, s => (s, [])
  | n + 1, s =>
      let r := Watch.notify s
      let r2 := notifyMany n r.1
      (r2.1, r.2 ++ r2.2)

/-- The exception with which a watch body terminates, if any: the first
`throwErr` it reaches. -/
def bodyOutcome : List WatchAction → Option Exc
  | [] => none
  | WatchAction.registerCleanup _ :: rest => bodyOutcome rest
  | WatchAction.throwErr e :: _ => some e

/-- Whether a watch body contains a `registerCleanup` action. -/
def registersCleanup : List WatchAction → Bool
  | [] => false
  | WatchAction.registerCleanup _ :: _ => true
  | WatchAction.throwErr _ :: rest => registersCleanup rest

/-- The step order inside a non-short-circuiting `run()` as the specification
words it.  Modelled from the spec: "invoke any pending cleanup from the
previous run, clear it, increment the tracking version, install self as
active consumer, execute the watch function, restore the previous active
consumer, set state to `Clean`" — for a previous cleanup with trace id `c`,
a watch with id `selfId`, a prior register value `prev`, and a body that
performs no observable step of its own. -/
def specRunOrder (c : Nat) (selfId : Nat) (prev : Option Nat) : List Event :=
  [Event.cleanupInvoke c, Event.cleanupClear, Event.tvIncr,
   Event.setConsumer (some selfId), Event.watchStart,
   Event.setConsumer prev, Event.dirtySet false]

/-- The watch body leaves `dirty`, `trackingVersion` and `activeConsumer`
unchanged: its only state effect is through `registerOnCleanup`. -/
theorem runBody_preserves (acts : List WatchAction) (s : WatchState) :
    ((runBody acts s).1).dirty = s.dirty ∧
    ((runBody acts s).1).trackingVersion = s.trackingVersion ∧
    ((runBody acts s).1).activeConsumer = s.activeConsumer := by
  induction acts generalizing s with
  | nil => exact ⟨rfl, rfl, rfl⟩
  | cons a rest ih =>
      cases a with
      | registerCleanup fn => simpa [runBody] using ih { s with cleanupFn := fn }
      | throwErr e => exact ⟨rfl, rfl, rfl⟩

/-- The watch body terminates with exactly the exception `bodyOutcome`
computes. -/
theorem runBody_outcome (acts : List WatchAction) (s : WatchState) :
    (runBody acts s).2 = bodyOutcome acts := by
  induction acts generalizing s with
  | nil => rfl
  | cons a rest ih =>
      cases a with
      | registerCleanup fn => simpa [runBody, bodyOutcome] using ih _
      | throwErr e => rfl

/-- A body with no `registerCleanup` action leaves `cleanupFn` unchanged. -/
theorem runBody_cleanupFn (acts : List WatchAction) (s : WatchState)
    (h : registersCleanup acts = false) :
    ((runBody acts s).1).cleanupFn = s.cleanupFn := by
  induction acts generalizing s with
  | nil => rfl
  | cons a rest ih =>
      cases a with
      | registerCleanup fn => simp [registersCleanup] at h
      | throwErr e => rfl

/-- `countSchedule` distributes over trace concatenation. -/
theorem countSchedule_append (a b : List Event) :
    countSchedule (a ++ b) = countSchedule a + countSchedule b := by
  simp [countSchedule, List.filter_append]

/-- While the watch is already dirty, any number of further `notify()` calls
leaves it dirty and never invokes the `schedule` callback. -/
theorem notifyMany_while_dirty (n : Nat) (s : WatchState) (h : s.dirty = true) :
    (notifyMany n s).1.dirty = true ∧ countSchedule (notifyMany n s).2 = 0 := by
  induction n generalizing s with
  | zero => simpa [notifyMany, countSchedule] using h
  | succ n ih =>
      have hn : Watch.notify s = ({ s with dirty := true }, [Event.dirtySet true]) := by
        simp [Watch.notify, h]
      have ihx := ih { s with dirty := true } rfl
      simp only [notifyMany, hn, countSchedule_append]
      refine ⟨ihx.1, ?_⟩
      rw [ihx.2]
      decide

/-- C1: if the user watch function throws during `run()`, the global
active-consumer register is restored to its value from before `run()` and
the exception is propagated to the caller unmodified. -/
theorem run_restores_active_consumer_and_propagates
    (w : Watch) (poll : Bool) (s : WatchState) (e : Exc)
    (hexec : s.trackingVersion = 0 ∨ poll = true)
    (hclean : s.cleanupFn.throws = none)
    (hbody : bodyOutcome w.watchBody = some e) :
    (w.run poll s).2.2 = some e ∧
    ((w.run poll s).1).activeConsumer = s.activeConsumer := by
  have hcond : ¬ (s.trackingVersion ≠ 0 ∧ poll = false) := by
    rcases hexec with h | h
    · simp [h]
    · simp [h]
  simp [Watch.run, hcond, hclean, runBody_outcome, hbody]

/-- Witness for C1 at a concrete throwing watch. -/
theorem run_restores_active_consumer_and_propagates_witness :
    ((Watch.mk 1 [WatchAction.throwErr 5]).run true
        (Watch.initialState (some 9))).2.2 = some 5 ∧
    (((Watch.mk 1 [WatchAction.throwErr 5]).run true
        (Watch.initialState (some 9))).1).activeConsumer = some 9 :=
  run_restores_active_consumer_and_propagates
    (Watch.mk 1 [WatchAction.throwErr 5]) true (Watch.initialState (some 9)) 5
    (Or.inr rfl) rfl rfl

/-- C2: for a watch whose tracking version is nonzero, a `run()` whose
producer poll returns `false` does not start the watch body, leaves every
field except `dirty` unchanged, and ends with `dirty = false` (Clean). -/
theorem run_short_circuits_when_poll_false
    (w : Watch) (s : WatchState) (htv : s.trackingVersion ≠ 0) :
    Event.watchStart ∉ (w.run false s).2.1 ∧
    ((w.run false s).1).dirty = false ∧
    (w.run false s).1 = { s with dirty := false } := by
  simp [Watch.run, htv]

/-- Witness for C2 at a concrete already-run watch. -/
theorem run_short_circuits_when_poll_false_witness :
    Event.watchStart ∉
      ((Watch.mk 1 []).run false
        { dirty := true, trackingVersion := 3, cleanupFn := NOOP_CLEANUP_FN,
          activeConsumer := none }).2.1 ∧
    (((Watch.mk 1 []).run false
        { dirty := true, trackingVersion := 3, cleanupFn := NOOP_CLEANUP_FN,
          activeConsumer := none }).1).dirty = false ∧
    ((Watch.mk 1 []).run false
        { dirty := true, trackingVersion := 3, cleanupFn := NOOP_CLEANUP_FN,
          activeConsumer := none }).1 =
      { dirty := false, trackingVersion := 3, cleanupFn := NOOP_CLEANUP_FN,
        activeConsumer := none } :=
  run_short_circuits_when_poll_false (Watch.mk 1 [])
    { dirty := true, trackingVersion := 3, cleanupFn := NOOP_CLEANUP_FN,
      activeConsumer := none } (by decide)

/-- C3: starting from a clean watch, the first `notify()` and any `n`
further `notify()` calls before the next `run()` invoke the `schedule`
callback exactly once in total, and leave the watch dirty. -/
theorem notify_schedules_once_per_dirty_period
    (s : WatchState) (n : Nat) (h : s.dirty = false) :
    countSchedule ((Watch.notify s).2 ++ (notifyMany n (Watch.notify s).1).2) = 1 ∧
    (notifyMany n (Watch.notify s).1).1.dirty = true := by
  have hn : Watch.notify s =
      ({ s with dirty := true }, [Event.scheduleCall, Event.dirtySet true]) := by
    simp [Watch.notify, h]
  have hrest := notifyMany_while_dirty n { s with dirty := true } rfl
  constructor
  · rw [hn, countSchedule_append, hrest.2]
    rfl
  · rw [hn]
    exact hrest.1

/-- Witness for C3: a fresh watch, two further notifications. -/
theorem notify_schedules_once_per_dirty_period_witness :
    countSchedule ((Watch.notify (Watch.initialState none)).2 ++
        (notifyMany 2 (Watch.notify (Watch.initialState none)).1).2) = 1 ∧
    (notifyMany 2 (Watch.notify (Watch.initialState none)).1).1.dirty = true :=
  notify_schedules_once_per_dirty_period (Watch.initialState none) 2 rfl

/-- C4: the first `run()` of a freshly constructed watch always starts the
watch body, whatever the poll oracle answers and whether or not `notify()`
was ever called: the tracking version is still 0, so the short-circuit test
cannot fire. -/
theorem first_run_always_executes_body (w : Watch) (poll : Bool) (ac : Option Nat) :
    Event.watchStart ∈ (w.run poll (Watch.initialState ac)).2.1 := by
  simp [Watch.run, Watch.initialState, NOOP_CLEANUP_FN]

/-- The cleanup function registered after running a body, starting from
registered function `c`: the last `registerCleanup` the body reaches wins
(a throw stops the body, so later registrations never happen). -/
def lastRegistered : List WatchAction → CleanupFn → CleanupFn
  | [], c => c
  | WatchAction.registerCleanup fn :: rest, _ => lastRegistered rest fn
  | WatchAction.throwErr _ :: _, c => c

/-- `runBody` leaves exactly the cleanup function `lastRegistered` computes. -/
theorem runBody_lastRegistered (acts : List WatchAction) (s : WatchState) :
    ((runBody acts s).1).cleanupFn = lastRegistered acts s.cleanupFn := by
  induction acts generalizing s with
  | nil => rfl
  | cons a rest ih =>
      cases a with
      | registerCleanup fn =>
          simpa [runBody, lastRegistered] using ih { s with cleanupFn := fn }
      | throwErr e => rfl

/-- C5 counterexample: for the watch with id 1 whose body throws 7, run from
a fresh state, `run()` propagates the exception and increments the tracking
version, yet the watch is NOT left dirty — `dirty` was cleared at the start
of `run()` and is never set back, so the claim's "left still-dirty" fails. -/
theorem throwing_run_not_left_dirty :
    ((Watch.mk 1 [WatchAction.throwErr 7]).run true (Watch.initialState none)).2.2 =
      some 7 ∧
    (((Watch.mk 1 [WatchAction.throwErr 7]).run true
        (Watch.initialState none)).1).trackingVersion = 1 ∧
    ¬ ((((Watch.mk 1 [WatchAction.throwErr 7]).run true
        (Watch.initialState none)).1).dirty = true) := by
  decide

/-- C5 amended: if the watch body throws during an executing `run()`, the
tracking version remains incremented but the dirty flag is left `false`
(it is cleared at the start of `run()`); precisely because the watch is
clean again, a subsequent `notify()` invokes `schedule` once more, so a
retry via `notify()` + `run()` is possible. -/
theorem throwing_run_increments_tv_and_clears_dirty
    (w : Watch) (poll : Bool) (s : WatchState) (e : Exc)
    (hexec : s.trackingVersion = 0 ∨ poll = true)
    (hclean : s.cleanupFn.throws = none)
    (hbody : bodyOutcome w.watchBody = some e) :
    ((w.run poll s).1).trackingVersion = s.trackingVersion + 1 ∧
    ((w.run poll s).1).dirty = false ∧
    countSchedule (Watch.notify (w.run poll s).1).2 = 1 := by
  have hcond : ¬ (s.trackingVersion ≠ 0 ∧ poll = false) := by
    rcases hexec with h | h
    · simp [h]
    · simp [h]
  have hp := runBody_preserves w.watchBody
    { s with dirty := false, activeConsumer := some w.selfId,
             trackingVersion := s.trackingVersion + 1,
             cleanupFn := NOOP_CLEANUP_FN }
  simp [Watch.run, hcond, hclean, Watch.notify, hp.1, hp.2.1, countSchedule,
    isScheduleCall]

/-- Witness for C5's amended theorem at a concrete throwing watch. -/
theorem throwing_run_increments_tv_and_clears_dirty_witness :
    (((Watch.mk 2 [WatchAction.throwErr 3]).run true
        (Watch.initialState none)).1).trackingVersion = 1 ∧
    (((Watch.mk 2 [WatchAction.throwErr 3]).run true
        (Watch.initialState none)).1).dirty = false ∧
    countSchedule (Watch.notify ((Watch.mk 2 [WatchAction.throwErr 3]).run true
        (Watch.initialState none)).1).2 = 1 :=
  throwing_run_increments_tv_and_clears_dirty
    (Watch.mk 2 [WatchAction.throwErr 3]) true (Watch.initialState none) 3
    (Or.inl rfl) rfl rfl

/-- C6 counterexample: a freshly constructed `Watch` does not have its dirty
flag set — the source initializer is `private dirty = false`. -/
theorem fresh_watch_not_dirty :
    ¬ ((Watch.initialState none).dirty = true) := by
  decide

/-- C6 amended: a freshly constructed `Watch` starts with `dirty = false`
(Clean) and tracking version 0.  The first `run()` nevertheless always
executes the body (the version-0 check, see C4), and the very first
`notify()` does invoke `schedule` — which it would not if `dirty` started
`true`. -/
theorem fresh_watch_starts_clean (ac : Option Nat) :
    (Watch.initialState ac).dirty = false ∧
    (Watch.initialState ac).trackingVersion = 0 ∧
    countSchedule (Watch.notify (Watch.initialState ac)).2 = 1 :=
  ⟨rfl, rfl, rfl⟩

/-- C7 counterexample: for the watch with id 1 and an empty body, run from a
fresh state, the event trace of `run()` is not the order the spec asserts
(`specRunOrder`): the code sets `dirty = false` first, installs the active
consumer before incrementing the tracking version, and both happen before
the pending cleanup is invoked. -/
theorem run_order_differs_from_spec_order :
    ((Watch.mk 1 []).run true (Watch.initialState none)).2.1 ≠
      specRunOrder 0 1 none := by
  decide

/-- C7 amended: a non-short-circuiting `run()` whose pending cleanup returns
normally performs its observable steps in exactly this order: clear the
dirty flag, install the watch as active consumer, increment the tracking
version, invoke the pending cleanup, clear it, execute the watch function,
and restore the previous active consumer. -/
theorem run_event_order
    (w : Watch) (poll : Bool) (s : WatchState)
    (hexec : s.trackingVersion = 0 ∨ poll = true)
    (hclean : s.cleanupFn.throws = none) :
    (w.run poll s).2.1 =
      [Event.dirtySet false, Event.setConsumer (some w.selfId), Event.tvIncr,
       Event.cleanupInvoke s.cleanupFn.id, Event.cleanupClear, Event.watchStart,
       Event.setConsumer s.activeConsumer] := by
  have hcond : ¬ (s.trackingVersion ≠ 0 ∧ poll = false) := by
    rcases hexec with h | h
    · simp [h]
    · simp [h]
  simp [Watch.run, hcond, hclean]

/-- Witness for C7's amended theorem at a concrete input. -/
theorem run_event_order_witness :
    ((Watch.mk 4 []).run true
        { dirty := false, trackingVersion := 0, cleanupFn := ⟨5, none⟩,
          activeConsumer := some 9 }).2.1 =
      [Event.dirtySet false, Event.setConsumer (some 4), Event.tvIncr,
       Event.cleanupInvoke 5, Event.cleanupClear, Event.watchStart,
       Event.setConsumer (some 9)] :=
  run_event_order (Watch.mk 4 []) true
    { dirty := false, trackingVersion := 0, cleanupFn := ⟨5, none⟩,
      activeConsumer := some 9 } (Or.inl rfl) rfl

/-- C8: in an executing `run()` (one that reaches the watch function), the
cleanup registered during the previous run is invoked exactly once, at trace
position 3, before the watch function starts at position 5; it is cleared
before the body runs, and the cleanup function left behind is exactly what
the body registered on top of the no-op (`NOOP_CLEANUP_FN` when the body
registered nothing). -/
theorem cleanup_invoked_once_before_body
    (w : Watch) (poll : Bool) (s : WatchState)
    (hexec : s.trackingVersion = 0 ∨ poll = true)
    (hclean : s.cleanupFn.throws = none) :
    countCleanupInvoke (w.run poll s).2.1 = 1 ∧
    ((w.run poll s).2.1)[3]? = some (Event.cleanupInvoke s.cleanupFn.id) ∧
    ((w.run poll s).2.1)[5]? = some Event.watchStart ∧
    ((w.run poll s).1).cleanupFn = lastRegistered w.watchBody NOOP_CLEANUP_FN := by
  have hcond : ¬ (s.trackingVersion ≠ 0 ∧ poll = false) := by
    rcases hexec with h | h
    · simp [h]
    · simp [h]
  have hl := runBody_lastRegistered w.watchBody
    { s with dirty := false, activeConsumer := some w.selfId,
             trackingVersion := s.trackingVersion + 1,
             cleanupFn := NOOP_CLEANUP_FN }
  simp [Watch.run, hcond, hclean, countCleanupInvoke, isCleanupInvoke, hl]

/-- Witness for C8 at a concrete watch that registers a new cleanup. -/
theorem cleanup_invoked_once_before_body_witness :
    countCleanupInvoke ((Watch.mk 1 [WatchAction.registerCleanup ⟨8, none⟩]).run true
        { dirty := true, trackingVersion := 2, cleanupFn := ⟨5, none⟩,
          activeConsumer := none }).2.1 = 1 ∧
    (((Watch.mk 1 [WatchAction.registerCleanup ⟨8, none⟩]).run true
        { dirty := true, trackingVersion := 2, cleanupFn := ⟨5, none⟩,
          activeConsumer := none }).2.1)[3]? = some (Event.cleanupInvoke 5) ∧
    (((Watch.mk 1 [WatchAction.registerCleanup ⟨8, none⟩]).run true
        { dirty := true, trackingVersion := 2, cleanupFn := ⟨5, none⟩,
          activeConsumer := none }).2.1)[5]? = some Event.watchStart ∧
    (((Watch.mk 1 [WatchAction.registerCleanup ⟨8, none⟩]).run true
        { dirty := true, trackingVersion := 2, cleanupFn := ⟨5, none⟩,
          activeConsumer := none }).1).cleanupFn =
      lastRegistered [WatchAction.registerCleanup ⟨8, none⟩] NOOP_CLEANUP_FN :=
  cleanup_invoked_once_before_body
    (Watch.mk 1 [WatchAction.registerCleanup ⟨8, none⟩]) true
    { dirty := true, trackingVersion := 2, cleanupFn := ⟨5, none⟩,
      activeConsumer := none } (Or.inr rfl) rfl

/-- C9: `cleanup()` invokes the currently registered cleanup function but
does not clear it: the state is unchanged, so a second `cleanup()` call
invokes the same function again, and so does the next executing `run()`
(modelled with a poll answer of `true`). -/
theorem cleanup_invokes_without_clearing (s : WatchState) (w : Watch) :
    (Watch.cleanup s).2.1 = [Event.cleanupInvoke s.cleanupFn.id] ∧
    ((Watch.cleanup s).1).cleanupFn = s.cleanupFn ∧
    (Watch.cleanup (Watch.cleanup s).1).2.1 = [Event.cleanupInvoke s.cleanupFn.id] ∧
    Event.cleanupInvoke s.cleanupFn.id ∈ (w.run true (Watch.cleanup s).1).2.1 := by
  refine ⟨rfl, rfl, rfl, ?_⟩
  show Event.cleanupInvoke s.cleanupFn.id ∈ (w.run true s).2.1
  cases hc : s.cleanupFn.throws <;> simp [Watch.run, hc]

/-- C10: if the previous run's registered cleanup function throws inside
`run()`, the exception propagates, the previous active consumer is still
restored, the tracking version stays incremented, and the throwing cleanup
function remains registered, so the next executing `run()` invokes it
again. -/
theorem throwing_cleanup_preserves_state
    (w : Watch) (poll : Bool) (s : WatchState) (e : Exc)
    (hexec : s.trackingVersion = 0 ∨ poll = true)
    (hthrow : s.cleanupFn.throws = some e) :
    (w.run poll s).2.2 = some e ∧
    ((w.run poll s).1).activeConsumer = s.activeConsumer ∧
    ((w.run poll s).1).trackingVersion = s.trackingVersion + 1 ∧
    ((w.run poll s).1).cleanupFn = s.cleanupFn ∧
    Event.cleanupInvoke s.cleanupFn.id ∈ (w.run true (w.run poll s).1).2.1 := by
  have hcond : ¬ (s.trackingVersion ≠ 0 ∧ poll = false) := by
    rcases hexec with h | h
    · simp [h]
    · simp [h]
  simp [Watch.run, hcond, hthrow]

/-- Witness for C10 at a concrete throwing cleanup. -/
theorem throwing_cleanup_preserves_state_witness :
    ((Watch.mk 3 []).run true
        { dirty := false, trackingVersion := 0, cleanupFn := ⟨6, some 11⟩,
          activeConsumer := some 2 }).2.2 = some 11 ∧
    (((Watch.mk 3 []).run true
        { dirty := false, trackingVersion := 0, cleanupFn := ⟨6, some 11⟩,
          activeConsumer := some 2 }).1).activeConsumer = some 2 ∧
    (((Watch.mk 3 []).run true
        { dirty := false, trackingVersion := 0, cleanupFn := ⟨6, some 11⟩,
          activeConsumer := some 2 }).1).trackingVersion = 1 ∧
    (((Watch.mk 3 []).run true
        { dirty := false, trackingVersion := 0, cleanupFn := ⟨6, some 11⟩,
          activeConsumer := some 2 }).1).cleanupFn = ⟨6, some 11⟩ ∧
    Event.cleanupInvoke 6 ∈ ((Watch.mk 3 []).run true
        ((Watch.mk 3 []).run true
          { dirty := false, trackingVersion := 0, cleanupFn := ⟨6, some 11⟩,
            activeConsumer := some 2 }).1).2.1 :=
  throwing_cleanup_preserves_state (Watch.mk 3 []) true
    { dirty := false, trackingVersion := 0, cleanupFn := ⟨6, some 11⟩,
      activeConsumer := some 2 } 11 (Or.inl rfl) rfl
